import Mathlib

/-!
Shallow embedding of the Car_Chatbot repository (src/tools/search_tool.py,
src/data/upsert_pinecone.py, src/chatbot.py, src/app.py) and proofs about it.

External effects (sqlite cursor, OpenAI embedding endpoint, Pinecone index)
are modelled as explicit environment records of pure functions; a call that
may raise is a function into Except, a call that the wrapper turns into an
optional value is an Option. Control flow, result envelopes and call traces
follow the Python source line by line.
-/

/-- Python scalar values as they appear in the result rows of the sqlite
queries: None, booleans, integers and strings. -/
inductive PyVal where
  | pynone : PyVal
  | pybool : Bool → PyVal
  | pyint : Int → PyVal
  | pystr : String → PyVal
deriving DecidableEq, Repr

/-- Python str() coercion on the scalar values, as used by str(row["id"]). -/
def pyStr : PyVal → String
  | PyVal.pynone => "None"
  | PyVal.pybool true => "True"
  | PyVal.pybool false => "False"
  | PyVal.pyint n => toString n
  | PyVal.pystr s => s

/-- A Python dict with string keys, in insertion order with unique keys. -/
abbrev Row := List (String × PyVal)

/-- Key membership test, the Python expression (k in row). -/
def Row.hasKey (r : Row) (k : String) : Bool :=
  r.any (fun p => p.1 == k)

/-- Dictionary lookup returning an optional value, the Python row.get(k). -/
def Row.get (r : Row) (k : String) : Option PyVal :=
  (r.find? (fun p => p.1 == k)).map (fun p => p.2)

/-- Insertion into a dict: an existing key is overwritten in place, a new key
is appended, matching CPython dict assignment semantics. -/
def dictInsert (d : Row) (k : String) (v : PyVal) : Row :=
  if d.any (fun p => p.1 == k) then
    d.map (fun p => if p.1 == k then (k, v) else p)
  else
    d ++ [(k, v)]

/-- dict(pairs): fold the pairs into a dict, later duplicates overwriting
earlier ones, as in dict(zip(column_names, row)). -/
def dictOfPairs (ps : List (String × PyVal)) : Row :=
  ps.foldl (fun d p => dictInsert d p.1 p.2) []

/-- Outcome of the sqlite cursor for one SQL text: a successful fetch with the
column names of cursor.description and the fetched tuples, a sqlite3.Error
raised by cursor.execute (caught inside execute_sql_query), or any other
exception escaping execute_sql_query. -/
inductive DbOutcome where
  | fetched : List String → List (List PyVal) → DbOutcome
  | sqliteError : String → DbOutcome
  | raised : String → DbOutcome

/-- Embedding of execute_sql_query from src/tools/search_tool.py: builds one
dict per fetched tuple via dict(zip(column_names, row)); a sqlite3.Error is
caught and turned into the one-element typed failure list; any other
exception propagates to the caller (modelled as Except.error). -/
def execute_sql_query (db : String → DbOutcome) (sql_query : String) :
    Except String (List Row) :=
  match db sql_query with
  | DbOutcome.fetched column_names sql_data =>
      Except.ok (sql_data.map (fun row => dictOfPairs (column_names.zip row)))
  | DbOutcome.sqliteError e =>
      Except.ok [[("error", PyVal.pystr ("SQL execution failed: " ++ e))]]
  | DbOutcome.raised e => Except.error e

/-- Parameters assembled for pc_index.query in execute_pinecone_query; the
filter field holds the id list of the metadata filter with the in-operator
when one is attached, and is absent otherwise. -/
structure QueryParams where
  vector : List Int
  top_k : Nat
  include_metadata : Bool
  filter : Option (List String)
deriving DecidableEq, Repr

/-- External capabilities used by execute_pinecone_query: the OpenAI
embeddings endpoint (may raise) and the Pinecone index query (may raise);
the success payload of the query is kept abstract as a string. -/
structure PineconeEnv where
  embedApi : String → Except String (List Int)
  queryApi : QueryParams → Except String String

/-- Embedding of get_embedding from src/tools/search_tool.py: newlines are
replaced by spaces, then the embeddings endpoint is called; any exception is
caught and None is returned. -/
def get_embedding (env : PineconeEnv) (text : String) : Option (List Int) :=
  let text := text.replace "\n" " "
  match env.embedApi text with
  | Except.ok emb => some emb
  | Except.error _ => Option.none

/-- Python truthiness of the optional embedding vector, as tested by the
statement (if not query_vector): None and the empty list are falsy. -/
def pyTruthyVec : Option (List Int) → Bool
  | Option.none => false
  | some l => !l.isEmpty

/-- Status-bearing dict returned by the semantic executor: success with data,
error with a message, or (at the coordinator level) a warning message. -/
inductive PineconeResult where
  | success : String → PineconeResult
  | failure : String → PineconeResult
  | warning : String → PineconeResult
deriving DecidableEq, Repr

/-- The status string of a semantic result dict. -/
def PineconeResult.status : PineconeResult → String
  | PineconeResult.success _ => "success"
  | PineconeResult.failure _ => "error"
  | PineconeResult.warning _ => "warning"

/-- Observable calls made during a coordinator run, in order: the SQL
executor call and its return, the semantic executor call with its id-list
argument, the embedding call, and the index query with its parameters. -/
inductive Event where
  | sqlCall : String → Event
  | sqlReturn : Event
  | pineconeCall : String → Option (List String) → Event
  | embedCall : String → Event
  | indexQuery : QueryParams → Event
deriving DecidableEq, Repr

/-- The query_params dict built in execute_pinecone_query: the fixed top_k of
10 with metadata, and the id filter attached only when id_list is truthy
(neither None nor empty). -/
def mkQueryParams (v : List Int) (id_list : Option (List String)) : QueryParams :=
  { vector := v
    top_k := 10
    include_metadata := true
    filter :=
      match id_list with
      | some l => if l.isEmpty then Option.none else some l
      | Option.none => Option.none }

/-- The first two statements of execute_pinecone_query, which run before the
embedding step and outside any try/except: the Pinecone client constructor
with the api key, and the index-handle resolution of the products index.
Each may raise, and such an exception escapes the function. -/
structure PineconeClientEnv where
  clientInit : Except String Unit
  indexHandle : Except String Unit

/-- Embedding of the body of execute_pinecone_query from
src/tools/search_tool.py from its get_embedding statement onward, paired
with its call trace: embed the query text, return a failure dict at once if
the vector is falsy, otherwise query the index with the assembled
parameters, catching any exception from the index query into a failure
dict. The two uncaught client statements that precede this body are
modelled in execute_pinecone_query_full below. -/
def execute_pinecone_query (env : PineconeEnv) (pinecone_query_text : String)
    (id_list : Option (List String)) : PineconeResult × List Event :=
  let query_vector := get_embedding env pinecone_query_text
  let evs := [Event.embedCall (pinecone_query_text.replace "\n" " ")]
  if !(pyTruthyVec query_vector) then
    (PineconeResult.failure "Failed to generate embedding for Pinecone query.", evs)
  else
    let query_params := mkQueryParams (query_vector.getD []) id_list
    match env.queryApi query_params with
    | Except.ok d =>
        (PineconeResult.success d, evs ++ [Event.indexQuery query_params])
    | Except.error e =>
        (PineconeResult.failure ("Pinecone query failed: " ++ e),
         evs ++ [Event.indexQuery query_params])

/-- Embedding of the whole of execute_pinecone_query from
src/tools/search_tool.py: the Pinecone client constructor and the
index-handle resolution run first, uncaught, so an exception from either
propagates out of the function (an Except.error result); only when both
succeed does the body above run and deliver its status dict. -/
def execute_pinecone_query_full (client : PineconeClientEnv)
    (env : PineconeEnv) (pinecone_query_text : String)
    (id_list : Option (List String)) :
    Except String (PineconeResult × List Event) := do
  let _ ← client.clientInit
  let _ ← client.indexHandle
  pure (execute_pinecone_query env pinecone_query_text id_list)

/-- The sql_results entry of the coordinator envelope: success with the row
list, the typed-failure branch keeping the returned data, or the exception
branch carrying only a message. -/
inductive SqlResults where
  | success : List Row → SqlResults
  | errorData : List Row → SqlResults
  | errorMsg : String → SqlResults
deriving DecidableEq, Repr

/-- The status string of the sql_results entry. -/
def SqlResults.status : SqlResults → String
  | SqlResults.success _ => "success"
  | SqlResults.errorData _ => "error"
  | SqlResults.errorMsg _ => "error"

/-- The results dict returned by execute_queries; a field holding
Option.none models the corresponding key being absent from the dict. -/
structure SearchEnvelope where
  sql_results : SqlResults
  extracted_ids_for_pinecone : Option (List String)
  pinecone_results : Option PineconeResult
deriving DecidableEq, Repr

/-- Environments of both executors, as wired by the coordinator. -/
structure CoordinatorEnv where
  db : String → DbOutcome
  pinecone : PineconeEnv

/-- The id-extraction loop of execute_queries: scan the rows in order and
append str(row["id"]) whenever the key is present with a non-None value. -/
def extractIds (rows : List Row) : List String :=
  rows.filterMap (fun row =>
    match row.get "id" with
    | some PyVal.pynone => Option.none
    | some v => some (pyStr v)
    | Option.none => Option.none)

/-- Embedding of execute_queries from src/tools/search_tool.py, paired with
its call trace. The SQL executor runs first; an exception there returns the
envelope with only the message-bearing failure entry. Otherwise the success
test is that the returned list is non-empty and its first dict lacks the
error key; ids are extracted only on success. When use_pinecone is set, an
empty query text yields a warning entry without calling the semantic
executor, and otherwise the semantic executor runs with the extracted ids,
an empty extraction passed as None. -/
def execute_queries (env : CoordinatorEnv) (sql_query : String)
    (pinecone_query : String) (use_pinecone : Bool) :
    SearchEnvelope × List Event :=
  match execute_sql_query env.db sql_query with
  | Except.error e =>
      ({ sql_results := SqlResults.errorMsg ("SQL execution failed: " ++ e)
         extracted_ids_for_pinecone := Option.none
         pinecone_results := Option.none },
       [Event.sqlCall sql_query])
  | Except.ok sql_query_results =>
      let isOk : Bool :=
        !sql_query_results.isEmpty &&
          !((sql_query_results.headD []).hasKey "error")
      let extracted_ids : List String :=
        if isOk then extractIds sql_query_results else []
      let sqlRes : SqlResults :=
        if isOk then SqlResults.success sql_query_results
        else SqlResults.errorData sql_query_results
      let idsField : Option (List String) :=
        if extracted_ids.isEmpty then Option.none else some extracted_ids
      let baseEvs : List Event := [Event.sqlCall sql_query, Event.sqlReturn]
      if use_pinecone then
        if pinecone_query == "" then
          ({ sql_results := sqlRes
             extracted_ids_for_pinecone := idsField
             pinecone_results := some (PineconeResult.warning
               "Pinecone search was indicated but no query text was provided.") },
           baseEvs)
        else
          let idArg : Option (List String) :=
            if extracted_ids.isEmpty then Option.none else some extracted_ids
          let pr := execute_pinecone_query env.pinecone pinecone_query idArg
          ({ sql_results := sqlRes
             extracted_ids_for_pinecone := idsField
             pinecone_results := some pr.1 },
           baseEvs ++ Event.pineconeCall pinecone_query idArg :: pr.2)
      else
        ({ sql_results := sqlRes
           extracted_ids_for_pinecone := idsField
           pinecone_results := Option.none },
         baseEvs)

/-- A chat message, Human or AI, as stored in the session history lists of
src/chatbot.py and src/app.py. -/
inductive Message where
  | human : String → Message
  | ai : String → Message
deriving DecidableEq, Repr

/-- The Python slice l[-n:]: the n most recent elements, or the whole list
when it is shorter than n. -/
def takeLast (n : Nat) (l : List Message) : List Message :=
  l.drop (l.length - n)

/-- One completed exchange in the Streamlit app (src/app.py): append the
human and AI messages, then truncate to the last 20 when the length exceeds
20. -/
def app_exchange (history : List Message) (user ai : String) : List Message :=
  let h := history ++ [Message.human user, Message.ai ai]
  if h.length > 20 then takeLast 20 h else h

/-- One completed exchange in the CLI loop (src/chatbot.py): append the
human and AI messages, then truncate to the last 10 when the length exceeds
10. -/
def chatbot_exchange (history : List Message) (user ai : String) :
    List Message :=
  let h := history ++ [Message.human user, Message.ai ai]
  if h.length > 10 then takeLast 10 h else h

/-- Run a session of the Streamlit app from an empty history over a list of
user/assistant exchanges. -/
def app_run (exchanges : List (String × String)) : List Message :=
  exchanges.foldl (fun h e => app_exchange h e.1 e.2) []

/-- Run a session of the CLI chatbot from an empty history over a list of
user/assistant exchanges. -/
def chatbot_run (exchanges : List (String × String)) : List Message :=
  exchanges.foldl (fun h e => chatbot_exchange h e.1 e.2) []

/-- The untruncated transcript of a session: the human and AI messages of
every exchange in order. -/
def fullTranscript (exchanges : List (String × String)) : List Message :=
  exchanges.foldl (fun h e => h ++ [Message.human e.1, Message.ai e.2]) []

/-- The index description returned by pc.describe_index: only its dimension
matters here. -/
structure IndexDescription where
  dimension : Nat
deriving DecidableEq, Repr

/-- External calls made by get_or_create_pinecone_index, each of which may
raise: the unconditional create_index (raises for instance when the index
already exists) and the index-handle resolution, both outside any
try/except, and then describe_index_stats and describe_index inside the
verification try block. -/
structure PineconeAdminEnv where
  createIndex : Except String Unit
  indexHandle : Except String Unit
  describeStats : Except String String
  describeIndex : Except String IndexDescription

/-- Outcome of get_or_create_pinecone_index: the index handle is returned,
the ValueError of the name guard escapes, or an exception from one of the
uncaught create_index and Index calls escapes. -/
inductive InitResult where
  | gotIndex : String → InitResult
  | configError : String → InitResult
  | raised : String → InitResult
deriving DecidableEq, Repr

/-- Embedding of get_or_create_pinecone_index from
src/data/upsert_pinecone.py. The missing-name guard raises a ValueError that
escapes. Then create_index and the index-handle resolution run
unconditionally and uncaught, so an exception from either escapes the
function. The dimension check then runs inside a try block: fetch the index
stats, describe the index, and raise a ValueError when the described
dimension differs from the requested one; the enclosing except-Exception
handler catches everything raised in the block, prints a warning, and the
index handle is returned regardless. -/
def get_or_create_pinecone_index (env : PineconeAdminEnv) (index_name : String)
    (dimension : Nat) : InitResult :=
  if index_name == "" || index_name == "YOUR_PINECONE_INDEX_NAME" then
    InitResult.configError
      "Pinecone index name is not set. Please update PINECONE_INDEX_NAME."
  else
    match env.createIndex with
    | Except.error e => InitResult.raised e
    | Except.ok _ =>
      match env.indexHandle with
      | Except.error e => InitResult.raised e
      | Except.ok _ =>
        let checkBlock : Except String Unit := do
          let _ ← env.describeStats
          let desc ← env.describeIndex
          if desc.dimension ≠ dimension then
            Except.error "dimension mismatch ValueError"
          else
            pure ()
        match checkBlock with
        | Except.ok _ => InitResult.gotIndex index_name
        | Except.error _ => InitResult.gotIndex index_name

/-- Concrete fixtures used by the witness and counterexample theorems. -/
def dbFixture : String → DbOutcome := fun _ =>
  DbOutcome.fetched ["id", "model"]
    [[PyVal.pystr "a", PyVal.pystr "Camry"],
     [PyVal.pystr "b", PyVal.pystr "CRV"],
     [PyVal.pynone, PyVal.pystr "X"]]

def rowsFixture : List Row :=
  [[("id", PyVal.pystr "a"), ("model", PyVal.pystr "Camry")],
   [("id", PyVal.pystr "b"), ("model", PyVal.pystr "CRV")],
   [("id", PyVal.pynone), ("model", PyVal.pystr "X")]]

def pineconeFixture : PineconeEnv :=
  { embedApi := fun _ => Except.ok [1, 2]
    queryApi := fun _ => Except.ok "matches" }

def envFixture : CoordinatorEnv :=
  { db := dbFixture, pinecone := pineconeFixture }

def envSqliteErrorFixture : CoordinatorEnv :=
  { db := fun _ => DbOutcome.sqliteError "no such table: cars"
    pinecone := pineconeFixture }

def envRaiseFixture : CoordinatorEnv :=
  { db := fun _ => DbOutcome.raised "cursor description is None"
    pinecone := pineconeFixture }

def envEmptyRowsFixture : CoordinatorEnv :=
  { db := fun _ => DbOutcome.fetched ["id"] []
    pinecone := pineconeFixture }

def envNoIdsFixture : CoordinatorEnv :=
  { db := fun _ => DbOutcome.fetched ["model"] [[PyVal.pystr "Model3"]]
    pinecone := pineconeFixture }

def pineconeEmbedDownFixture : PineconeEnv :=
  { embedApi := fun _ => Except.error "connection refused"
    queryApi := fun _ => Except.ok "matches" }

def pineconeQueryDownFixture : PineconeEnv :=
  { embedApi := fun _ => Except.ok [1, 2]
    queryApi := fun _ => Except.error "timeout" }

def clientOkFixture : PineconeClientEnv :=
  { clientInit := Except.ok ()
    indexHandle := Except.ok () }

def clientDownFixture : PineconeClientEnv :=
  { clientInit := Except.error "Pinecone API key is not set"
    indexHandle := Except.ok () }

def adminMismatchFixture : PineconeAdminEnv :=
  { createIndex := Except.ok ()
    indexHandle := Except.ok ()
    describeStats := Except.ok "stats"
    describeIndex := Except.ok ⟨768⟩ }

def adminConflictFixture : PineconeAdminEnv :=
  { createIndex := Except.error "index products already exists"
    indexHandle := Except.ok ()
    describeStats := Except.ok "stats"
    describeIndex := Except.ok ⟨768⟩ }

lemma execute_queries_trace_shape (env : CoordinatorEnv) (s p : String) (u : Bool) :
    (execute_queries env s p u).2 = [Event.sqlCall s] ∨
    ∃ rest, (execute_queries env s p u).2 =
      Event.sqlCall s :: Event.sqlReturn :: rest := by
  unfold execute_queries
  split
  · exact Or.inl rfl
  · dsimp only
    split
    · split
      · exact Or.inr ⟨[], rfl⟩
      · exact Or.inr ⟨_, rfl⟩
    · exact Or.inr ⟨[], rfl⟩

lemma execute_queries_error (env : CoordinatorEnv) (s p : String) (u : Bool)
    (e : String) (h : execute_sql_query env.db s = Except.error e) :
    execute_queries env s p u =
      ({ sql_results := SqlResults.errorMsg ("SQL execution failed: " ++ e)
         extracted_ids_for_pinecone := Option.none
         pinecone_results := Option.none },
       [Event.sqlCall s]) := by
  unfold execute_queries
  rw [h]

lemma execute_queries_ok_bad_rows (env : CoordinatorEnv) (s p : String)
    (rows : List Row) (h : execute_sql_query env.db s = Except.ok rows)
    (hbad : (!rows.isEmpty && !((rows.headD []).hasKey "error")) = false)
    (hp : p ≠ "") :
    execute_queries env s p true =
      ({ sql_results := SqlResults.errorData rows
         extracted_ids_for_pinecone := Option.none
         pinecone_results :=
           some (execute_pinecone_query env.pinecone p Option.none).1 },
       Event.sqlCall s :: Event.sqlReturn :: Event.pineconeCall p Option.none ::
         (execute_pinecone_query env.pinecone p Option.none).2) := by
  unfold execute_queries
  rw [h]
  dsimp only
  rw [hbad]
  simp [hp]

lemma execute_queries_good_pinecone (env : CoordinatorEnv) (s p : String)
    (rows : List Row) (h : execute_sql_query env.db s = Except.ok rows)
    (hgood : (!rows.isEmpty && !((rows.headD []).hasKey "error")) = true)
    (hp : p ≠ "") :
    execute_queries env s p true =
      ({ sql_results := SqlResults.success rows
         extracted_ids_for_pinecone :=
           if (extractIds rows).isEmpty then Option.none
           else some (extractIds rows)
         pinecone_results :=
           some (execute_pinecone_query env.pinecone p
             (if (extractIds rows).isEmpty then Option.none
              else some (extractIds rows))).1 },
       Event.sqlCall s :: Event.sqlReturn ::
         Event.pineconeCall p
           (if (extractIds rows).isEmpty then Option.none
            else some (extractIds rows)) ::
         (execute_pinecone_query env.pinecone p
           (if (extractIds rows).isEmpty then Option.none
            else some (extractIds rows))).2) := by
  unfold execute_queries
  rw [h]
  dsimp only
  rw [hgood]
  simp [hp]

lemma execute_queries_good_fields (env : CoordinatorEnv) (s p : String)
    (u : Bool) (rows : List Row)
    (h : execute_sql_query env.db s = Except.ok rows)
    (hgood : (!rows.isEmpty && !((rows.headD []).hasKey "error")) = true) :
    (execute_queries env s p u).1.sql_results = SqlResults.success rows ∧
    (execute_queries env s p u).1.extracted_ids_for_pinecone =
      (if (extractIds rows).isEmpty then Option.none
       else some (extractIds rows)) := by
  unfold execute_queries
  rw [h]
  dsimp only
  rw [hgood]
  rcases u with _ | _
  · simp
  · by_cases hp : p = "" <;> simp [hp]

lemma execute_queries_empty_query (env : CoordinatorEnv) (s : String)
    (rows : List Row) (h : execute_sql_query env.db s = Except.ok rows) :
    (execute_queries env s "" true).1.pinecone_results =
      some (PineconeResult.warning
        "Pinecone search was indicated but no query text was provided.") ∧
    (execute_queries env s "" true).2 =
      [Event.sqlCall s, Event.sqlReturn] := by
  unfold execute_queries
  rw [h]
  dsimp only
  by_cases hgood : (!rows.isEmpty && !((rows.headD []).hasKey "error")) = true <;>
    simp [hgood]

lemma epq_embed_fail (env : PineconeEnv) (t : String) (idl : Option (List String))
    (h : pyTruthyVec (get_embedding env t) = false) :
    execute_pinecone_query env t idl =
      (PineconeResult.failure "Failed to generate embedding for Pinecone query.",
       [Event.embedCall (t.replace "\n" " ")]) := by
  unfold execute_pinecone_query
  dsimp only
  rw [h]
  rfl

lemma epq_query_ok (env : PineconeEnv) (t : String) (idl : Option (List String))
    (v : List Int) (d : String) (hv : get_embedding env t = some v)
    (htr : pyTruthyVec (some v) = true)
    (hq : env.queryApi (mkQueryParams v idl) = Except.ok d) :
    execute_pinecone_query env t idl =
      (PineconeResult.success d,
       [Event.embedCall (t.replace "\n" " "),
        Event.indexQuery (mkQueryParams v idl)]) := by
  unfold execute_pinecone_query
  rw [hv]
  dsimp only
  rw [htr]
  simp [hq]

lemma epq_query_error (env : PineconeEnv) (t : String) (idl : Option (List String))
    (v : List Int) (e : String) (hv : get_embedding env t = some v)
    (htr : pyTruthyVec (some v) = true)
    (hq : env.queryApi (mkQueryParams v idl) = Except.error e) :
    execute_pinecone_query env t idl =
      (PineconeResult.failure ("Pinecone query failed: " ++ e),
       [Event.embedCall (t.replace "\n" " "),
        Event.indexQuery (mkQueryParams v idl)]) := by
  unfold execute_pinecone_query
  rw [hv]
  dsimp only
  rw [htr]
  simp [hq]

lemma epq_trace (env : PineconeEnv) (t : String) (idl : Option (List String)) :
    (execute_pinecone_query env t idl).2 =
      [Event.embedCall (t.replace "\n" " ")] ∨
    (execute_pinecone_query env t idl).2 =
      [Event.embedCall (t.replace "\n" " "),
       Event.indexQuery (mkQueryParams ((get_embedding env t).getD []) idl)] := by
  unfold execute_pinecone_query
  dsimp only
  split
  · exact Or.inl rfl
  · split <;> exact Or.inr rfl

lemma takeLast_length (n : Nat) (l : List Message) :
    (takeLast n l).length = min n l.length := by
  simp only [takeLast, List.length_drop]
  omega

lemma takeLast_eq_self (n : Nat) (l : List Message) (h : l.length ≤ n) :
    takeLast n l = l := by
  simp only [takeLast, Nat.sub_eq_zero_of_le h, List.drop_zero]

lemma takeLast_append_takeLast (n : Nat) (l p : List Message)
    (hp : p.length ≤ n) :
    takeLast n (takeLast n l ++ p) = takeLast n (l ++ p) := by
  unfold takeLast
  rw [List.length_append, List.length_drop, List.length_append]
  rw [List.drop_append_of_le_length (by rw [List.length_drop]; omega),
      List.drop_append_of_le_length (by omega), List.drop_drop]
  congr 2
  omega

lemma app_exchange_takeLast (h : List Message) (u a : String) :
    app_exchange h u a = takeLast 20 (h ++ [Message.human u, Message.ai a]) := by
  unfold app_exchange
  dsimp only
  by_cases hl : (h ++ [Message.human u, Message.ai a]).length > 20
  · rw [if_pos hl]
  · rw [if_neg hl, takeLast_eq_self _ _ (by omega)]

lemma chatbot_exchange_takeLast (h : List Message) (u a : String) :
    chatbot_exchange h u a = takeLast 10 (h ++ [Message.human u, Message.ai a]) := by
  unfold chatbot_exchange
  dsimp only
  by_cases hl : (h ++ [Message.human u, Message.ai a]).length > 10
  · rw [if_pos hl]
  · rw [if_neg hl, takeLast_eq_self _ _ (by omega)]

lemma app_run_aux (es : List (String × String)) :
    ∀ H : List Message,
      es.foldl (fun h e => app_exchange h e.1 e.2) (takeLast 20 H) =
        takeLast 20
          (es.foldl (fun h e => h ++ [Message.human e.1, Message.ai e.2]) H) := by
  induction es with
  | nil => intro H; simp
  | cons e es ih =>
    intro H
    simp only [List.foldl_cons]
    rw [app_exchange_takeLast,
        takeLast_append_takeLast 20 H _ (by simp)]
    exact ih (H ++ [Message.human e.1, Message.ai e.2])

lemma chatbot_run_aux (es : List (String × String)) :
    ∀ H : List Message,
      es.foldl (fun h e => chatbot_exchange h e.1 e.2) (takeLast 10 H) =
        takeLast 10
          (es.foldl (fun h e => h ++ [Message.human e.1, Message.ai e.2]) H) := by
  induction es with
  | nil => intro H; simp
  | cons e es ih =>
    intro H
    simp only [List.foldl_cons]
    rw [chatbot_exchange_takeLast,
        takeLast_append_takeLast 10 H _ (by simp)]
    exact ih (H ++ [Message.human e.1, Message.ai e.2])

lemma app_run_eq (es : List (String × String)) :
    app_run es = takeLast 20 (fullTranscript es) := by
  have := app_run_aux es []
  simpa [app_run, fullTranscript, takeLast] using this

lemma chatbot_run_eq (es : List (String × String)) :
    chatbot_run es = takeLast 10 (fullTranscript es) := by
  have := chatbot_run_aux es []
  simpa [chatbot_run, fullTranscript, takeLast] using this








/-- C1: when the structured executor returns a typed failure value (a list
whose first dict carries the error key) rather than raising, and use_pinecone
is true with a non-empty semantic query, the envelope records the structured
failure status and the semantic executor is still invoked. -/
theorem typed_failure_still_semantic (env : CoordinatorEnv) (s p : String)
    (rows : List Row) (h : execute_sql_query env.db s = Except.ok rows)
    (hne : rows ≠ []) (herr : (rows.headD []).hasKey "error" = true)
    (hp : p ≠ "") :
    (execute_queries env s p true).1.sql_results = SqlResults.errorData rows ∧
    ((execute_queries env s p true).1.sql_results).status = "error" ∧
    (execute_queries env s p true).1.pinecone_results =
      some (execute_pinecone_query env.pinecone p Option.none).1 ∧
    Event.pineconeCall p Option.none ∈ (execute_queries env s p true).2 := by
  have hbad : (!rows.isEmpty && !((rows.headD []).hasKey "error")) = false := by
    rcases rows with _ | ⟨a, l⟩
    · exact absurd rfl hne
    · rw [herr]
      simp
  rw [execute_queries_ok_bad_rows env s p rows h hbad hp]
  exact ⟨rfl, rfl, rfl, by simp⟩

/-- Witness for C1 at a sqlite error turned into the typed failure list. -/
theorem typed_failure_still_semantic_witness :
    (execute_queries envSqliteErrorFixture "SELECT * FROM cars" "fuel" true).1.sql_results =
      SqlResults.errorData
        [[("error", PyVal.pystr "SQL execution failed: no such table: cars")]] ∧
    ((execute_queries envSqliteErrorFixture "SELECT * FROM cars" "fuel" true).1.sql_results).status = "error" ∧
    (execute_queries envSqliteErrorFixture "SELECT * FROM cars" "fuel" true).1.pinecone_results =
      some (execute_pinecone_query envSqliteErrorFixture.pinecone "fuel" Option.none).1 ∧
    Event.pineconeCall "fuel" Option.none ∈
      (execute_queries envSqliteErrorFixture "SELECT * FROM cars" "fuel" true).2 :=
  typed_failure_still_semantic envSqliteErrorFixture "SELECT * FROM cars" "fuel"
    [[("error", PyVal.pystr "SQL execution failed: no such table: cars")]]
    rfl (by decide) (by decide) (by decide)

/-- C2: when structured execution raises, the envelope carries only the
message-bearing structured failure, the semantic section is absent, and the
semantic executor is never invoked, whatever use_pinecone and the query
text. -/
theorem sql_exception_short_circuits (env : CoordinatorEnv) (s p : String)
    (u : Bool) (e : String) (h : execute_sql_query env.db s = Except.error e) :
    execute_queries env s p u =
      ({ sql_results := SqlResults.errorMsg ("SQL execution failed: " ++ e)
         extracted_ids_for_pinecone := Option.none
         pinecone_results := Option.none },
       [Event.sqlCall s]) ∧
    ((execute_queries env s p u).1.sql_results).status = "error" ∧
    (execute_queries env s p u).1.pinecone_results = Option.none ∧
    ∀ t idl, Event.pineconeCall t idl ∉ (execute_queries env s p u).2 := by
  have hq := execute_queries_error env s p u e h
  refine ⟨hq, by simp [hq, SqlResults.status], by simp [hq], ?_⟩
  rw [hq]
  intro t idl
  simp

/-- Witness for C2 at an exception escaping the structured executor with
use_pinecone true and a non-empty semantic query. -/
theorem sql_exception_short_circuits_witness :
    execute_queries envRaiseFixture "PRAGMA foo" "fuel" true =
      ({ sql_results :=
           SqlResults.errorMsg "SQL execution failed: cursor description is None"
         extracted_ids_for_pinecone := Option.none
         pinecone_results := Option.none },
       [Event.sqlCall "PRAGMA foo"]) ∧
    ((execute_queries envRaiseFixture "PRAGMA foo" "fuel" true).1.sql_results).status = "error" ∧
    (execute_queries envRaiseFixture "PRAGMA foo" "fuel" true).1.pinecone_results = Option.none ∧
    ∀ t idl, Event.pineconeCall t idl ∉
      (execute_queries envRaiseFixture "PRAGMA foo" "fuel" true).2 :=
  sql_exception_short_circuits envRaiseFixture "PRAGMA foo" "fuel" true
    "cursor description is None" rfl

/-- C3: the structured executor is always invoked first and has returned
before the semantic executor is ever invoked: the trace starts with the SQL
call, and any semantic call is preceded by the SQL return. -/
theorem structured_first_invariant (env : CoordinatorEnv) (s p : String)
    (u : Bool) :
    (execute_queries env s p u).2.head? = some (Event.sqlCall s) ∧
    ∀ i t idl,
      (execute_queries env s p u).2.get? i = some (Event.pineconeCall t idl) →
      ∃ j, j < i ∧ (execute_queries env s p u).2.get? j = some Event.sqlReturn := by
  rcases execute_queries_trace_shape env s p u with hsh | ⟨rest, hsh⟩ <;> rw [hsh]
  · refine ⟨rfl, ?_⟩
    intro i t idl hi
    match i, hi with
    | 0, hi => simp at hi
    | i + 1, hi => simp at hi
  · refine ⟨rfl, ?_⟩
    intro i t idl hi
    match i, hi with
    | 0, hi => simp at hi
    | 1, hi => simp at hi
    | i + 2, hi => exact ⟨1, by omega, rfl⟩

/-- Witness for C3: in a run where the semantic executor is invoked, its
trace position is strictly after the SQL return. -/
theorem structured_first_invariant_witness :
    (execute_queries envFixture "SELECT id, model FROM cars" "fuel" true).2.head? =
      some (Event.sqlCall "SELECT id, model FROM cars") ∧
    ∃ j, j < 2 ∧
      (execute_queries envFixture "SELECT id, model FROM cars" "fuel" true).2.get? j =
        some Event.sqlReturn :=
  ⟨(structured_first_invariant envFixture "SELECT id, model FROM cars" "fuel" true).1,
   (structured_first_invariant envFixture "SELECT id, model FROM cars" "fuel" true).2
     2 "fuel" (some ["a", "b"]) (by decide)⟩

/-- C10: a structured query returning zero rows without raising yields an
error-status sql_results entry holding the empty data list, no extracted
identifier key, and, with use_pinecone true and a non-empty query, an
unscoped semantic search still proceeds. -/
theorem empty_rows_error_status (env : CoordinatorEnv) (s p : String)
    (hp : p ≠ "") (h : execute_sql_query env.db s = Except.ok []) :
    (execute_queries env s p true).1.sql_results = SqlResults.errorData [] ∧
    ((execute_queries env s p true).1.sql_results).status = "error" ∧
    (execute_queries env s p true).1.extracted_ids_for_pinecone = Option.none ∧
    Event.pineconeCall p Option.none ∈ (execute_queries env s p true).2 := by
  rw [execute_queries_ok_bad_rows env s p [] h (by decide) hp]
  exact ⟨rfl, rfl, rfl, by simp⟩

/-- Witness for C10 at a query fetching no rows. -/
theorem empty_rows_error_status_witness :
    (execute_queries envEmptyRowsFixture "SELECT id FROM cars WHERE 0" "fuel" true).1.sql_results =
      SqlResults.errorData [] ∧
    ((execute_queries envEmptyRowsFixture "SELECT id FROM cars WHERE 0" "fuel" true).1.sql_results).status = "error" ∧
    (execute_queries envEmptyRowsFixture "SELECT id FROM cars WHERE 0" "fuel" true).1.extracted_ids_for_pinecone =
      Option.none ∧
    Event.pineconeCall "fuel" Option.none ∈
      (execute_queries envEmptyRowsFixture "SELECT id FROM cars WHERE 0" "fuel" true).2 :=
  empty_rows_error_status envEmptyRowsFixture "SELECT id FROM cars WHERE 0" "fuel"
    (by decide) rfl

lemma extractIds_cons_some (row : Row) (rest : List Row) (v : PyVal)
    (hv : row.get "id" = some v) (hvn : v ≠ PyVal.pynone) :
    extractIds (row :: rest) = pyStr v :: extractIds rest := by
  unfold extractIds
  rw [List.filterMap_cons]
  rw [hv]
  rcases v with _ | b | n | s
  · exact absurd rfl hvn
  · rfl
  · rfl
  · rfl

lemma extractIds_cons_missing (row : Row) (rest : List Row)
    (hv : row.get "id" = Option.none) :
    extractIds (row :: rest) = extractIds rest := by
  unfold extractIds
  rw [List.filterMap_cons]
  rw [hv]

lemma extractIds_cons_null (row : Row) (rest : List Row)
    (hv : row.get "id" = some PyVal.pynone) :
    extractIds (row :: rest) = extractIds rest := by
  unfold extractIds
  rw [List.filterMap_cons]
  rw [hv]

/-- C4: on a successful structured result the extracted identifier list is
exactly the in-order string coercion of the present, non-null id values,
with duplicates retained, and it is what the envelope publishes under the
extracted-ids key (absent when empty); on the example rows the extraction
yields the two non-null ids. -/
theorem identifier_extraction (env : CoordinatorEnv) (s p : String) (u : Bool)
    (rows : List Row) (h : execute_sql_query env.db s = Except.ok rows)
    (hne : rows ≠ []) (herr : (rows.headD []).hasKey "error" = false) :
    (execute_queries env s p u).1.sql_results = SqlResults.success rows ∧
    (execute_queries env s p u).1.extracted_ids_for_pinecone =
      (if (extractIds rows).isEmpty then Option.none
       else some (extractIds rows)) ∧
    (∀ (row : Row) (rest : List Row) (v : PyVal), row.get "id" = some v →
      v ≠ PyVal.pynone → extractIds (row :: rest) = pyStr v :: extractIds rest) ∧
    (∀ (row : Row) (rest : List Row), row.get "id" = Option.none →
      extractIds (row :: rest) = extractIds rest) ∧
    (∀ (row : Row) (rest : List Row), row.get "id" = some PyVal.pynone →
      extractIds (row :: rest) = extractIds rest) ∧
    extractIds [[("id", PyVal.pystr "a")], [("id", PyVal.pystr "b")],
      [("id", PyVal.pynone)]] = ["a", "b"] := by
  have hgood : (!rows.isEmpty && !((rows.headD []).hasKey "error")) = true := by
    rcases rows with _ | ⟨a, l⟩
    · exact absurd rfl hne
    · rw [herr]
      simp
  obtain ⟨h1, h2⟩ := execute_queries_good_fields env s p u rows h hgood
  exact ⟨h1, h2, extractIds_cons_some, extractIds_cons_missing,
    extractIds_cons_null, by decide⟩

/-- Witness for C4 at rows holding ids a, b and a null id. -/
theorem identifier_extraction_witness :
    (execute_queries envFixture "SELECT id, model FROM cars" "fuel" true).1.sql_results =
      SqlResults.success rowsFixture ∧
    (execute_queries envFixture "SELECT id, model FROM cars" "fuel" true).1.extracted_ids_for_pinecone =
      some ["a", "b"] := by
  obtain ⟨h1, h2, -⟩ := identifier_extraction envFixture
    "SELECT id, model FROM cars" "fuel" true rowsFixture rfl
    (by decide) (by decide)
  refine ⟨h1, ?_⟩
  rw [h2]
  decide

/-- C5 counterexample: a whitespace-only semantic query is truthy in the
emptiness test of the source, so the semantic executor is invoked and no
warning is recorded, against the claim that a blank query is guarded. -/
theorem blank_query_counterexample :
    Event.pineconeCall " " (some ["a", "b"]) ∈
      (execute_queries envFixture "SELECT id, model FROM cars" " " true).2 ∧
    (execute_queries envFixture "SELECT id, model FROM cars" " " true).1.pinecone_results =
      some (PineconeResult.success "matches") := by decide

/-- C5 as amended: only the exactly empty semantic query is guarded: with
use_pinecone true, an empty query text and a structured step that does not
raise, the semantic section of the envelope is the warning entry and the
semantic executor is never invoked. -/
theorem empty_semantic_query_guard (env : CoordinatorEnv) (s : String)
    (rows : List Row) (h : execute_sql_query env.db s = Except.ok rows) :
    (execute_queries env s "" true).1.pinecone_results =
      some (PineconeResult.warning
        "Pinecone search was indicated but no query text was provided.") ∧
    ∀ t idl, Event.pineconeCall t idl ∉ (execute_queries env s "" true).2 := by
  obtain ⟨h1, h2⟩ := execute_queries_empty_query env s rows h
  refine ⟨h1, ?_⟩
  rw [h2]
  intro t idl
  simp

/-- Witness for the amended C5 at an empty semantic query. -/
theorem empty_semantic_query_guard_witness :
    (execute_queries envFixture "SELECT id, model FROM cars" "" true).1.pinecone_results =
      some (PineconeResult.warning
        "Pinecone search was indicated but no query text was provided.") ∧
    ∀ t idl, Event.pineconeCall t idl ∉
      (execute_queries envFixture "SELECT id, model FROM cars" "" true).2 :=
  empty_semantic_query_guard envFixture "SELECT id, model FROM cars"
    rowsFixture rfl

lemma epq_indexQuery_filter (penv : PineconeEnv) (t : String)
    (qp : QueryParams)
    (hmem : Event.indexQuery qp ∈ (execute_pinecone_query penv t Option.none).2) :
    qp.filter = Option.none := by
  rcases epq_trace penv t Option.none with htr | htr <;> rw [htr] at hmem
  · simp at hmem
  · simp at hmem
    rw [hmem]
    rfl


/-- C6: with use_pinecone true, a non-empty query, a structured step that
does not raise and no extracted identifiers, the semantic executor still
runs, with the id-list argument absent, and any index query it performs
carries no filter parameter. -/
theorem unscoped_fallback (env : CoordinatorEnv) (s p : String) (hp : p ≠ "")
    (hok : ∃ rows, execute_sql_query env.db s = Except.ok rows)
    (hids : (execute_queries env s p true).1.extracted_ids_for_pinecone =
      Option.none) :
    Event.pineconeCall p Option.none ∈ (execute_queries env s p true).2 ∧
    ∀ qp, Event.indexQuery qp ∈ (execute_queries env s p true).2 →
      qp.filter = Option.none := by
  obtain ⟨rows, h⟩ := hok
  by_cases hgood : (!rows.isEmpty && !((rows.headD []).hasKey "error")) = true
  · obtain ⟨-, h2⟩ := execute_queries_good_fields env s p true rows h hgood
    rw [hids] at h2
    by_cases hie : (extractIds rows).isEmpty
    · have hq := execute_queries_good_pinecone env s p rows h hgood hp
      rw [if_pos hie] at hq
      rw [hq]
      refine ⟨by simp, ?_⟩
      intro qp hqp
      simp at hqp
      exact epq_indexQuery_filter env.pinecone p qp hqp
    · rw [if_neg hie] at h2
      simp at h2
  · have hbad : (!rows.isEmpty && !((rows.headD []).hasKey "error")) = false :=
      by simpa using hgood
    have hq := execute_queries_ok_bad_rows env s p rows h hbad hp
    rw [hq]
    refine ⟨by simp, ?_⟩
    intro qp hqp
    simp at hqp
    exact epq_indexQuery_filter env.pinecone p qp hqp

/-- Witness for C6 at rows carrying no id column. -/
theorem unscoped_fallback_witness :
    Event.pineconeCall "charging" Option.none ∈
      (execute_queries envNoIdsFixture "SELECT model FROM cars" "charging" true).2 ∧
    (mkQueryParams [1, 2] Option.none).filter = Option.none :=
  ⟨(unscoped_fallback envNoIdsFixture "SELECT model FROM cars" "charging"
      (by decide) ⟨[[("model", PyVal.pystr "Model3")]], rfl⟩ (by decide)).1,
   (unscoped_fallback envNoIdsFixture "SELECT model FROM cars" "charging"
      (by decide) ⟨[[("model", PyVal.pystr "Model3")]], rfl⟩ (by decide)).2
     (mkQueryParams [1, 2] Option.none) (by decide)⟩

/-- C7: after each completed exchange the retained history is exactly the
most recent slice of the full transcript: the Streamlit session keeps the
last 20 messages and the CLI session the last 10, so the retained length
never exceeds 20 and only the most recent turns survive; after 11 concrete
exchange pairs the Streamlit history holds exactly 20 messages. -/
theorem history_cap (es : List (String × String)) :
    (app_run es).length ≤ 20 ∧
    app_run es = takeLast 20 (fullTranscript es) ∧
    (chatbot_run es).length ≤ 20 ∧
    chatbot_run es = takeLast 10 (fullTranscript es) ∧
    (app_run (List.replicate 11 ("you", "bot"))).length = 20 := by
  refine ⟨?_, app_run_eq es, ?_, chatbot_run_eq es, by decide⟩
  · rw [app_run_eq es, takeLast_length]
    omega
  · rw [chatbot_run_eq es, takeLast_length]
    omega



/-- C8 counterexample: when the uncaught Pinecone client constructor at the
top of execute_pinecone_query raises (here: a missing API key), the
exception propagates out of the call instead of a status dict being
returned, against the claim that the call never raises past its boundary. -/
theorem semantic_raise_counterexample :
    execute_pinecone_query_full clientDownFixture pineconeFixture "safety"
      Option.none = Except.error "Pinecone API key is not set" := rfl

/-- C8 as amended: once the uncaught client construction and index-handle
resolution succeed, the semantic executor returns a status dict and never a
warning: an untruthy embedding yields the failure dict at once with no index
query in the trace, a raising index query yields the failure dict with the
diagnostic message, and a successful index query yields the success dict;
only an exception from the two leading client statements escapes the
boundary. -/
theorem semantic_executor_guarded_total (client : PineconeClientEnv)
    (penv : PineconeEnv) (t : String) (idl : Option (List String))
    (hc : client.clientInit = Except.ok ())
    (hh : client.indexHandle = Except.ok ()) :
    execute_pinecone_query_full client penv t idl =
      Except.ok (execute_pinecone_query penv t idl) ∧
    (∀ m, (execute_pinecone_query penv t idl).1 ≠ PineconeResult.warning m) ∧
    (pyTruthyVec (get_embedding penv t) = false →
      (execute_pinecone_query penv t idl).1 =
        PineconeResult.failure "Failed to generate embedding for Pinecone query." ∧
      ∀ qp, Event.indexQuery qp ∉ (execute_pinecone_query penv t idl).2) ∧
    (∀ v d, get_embedding penv t = some v → pyTruthyVec (some v) = true →
      penv.queryApi (mkQueryParams v idl) = Except.ok d →
      (execute_pinecone_query penv t idl).1 = PineconeResult.success d) ∧
    (∀ v e, get_embedding penv t = some v → pyTruthyVec (some v) = true →
      penv.queryApi (mkQueryParams v idl) = Except.error e →
      (execute_pinecone_query penv t idl).1 =
        PineconeResult.failure ("Pinecone query failed: " ++ e)) := by
  refine ⟨?_, ?_, ?_, ?_, ?_⟩
  · unfold execute_pinecone_query_full
    rw [hc, hh]
    rfl
  · intro m
    unfold execute_pinecone_query
    dsimp only
    split
    · simp
    · split <;> simp
  · intro hf
    rw [epq_embed_fail penv t idl hf]
    exact ⟨rfl, by intro qp; simp⟩
  · intro v d hv htr hq
    rw [epq_query_ok penv t idl v d hv htr hq]
  · intro v e hv htr hq
    rw [epq_query_error penv t idl v e hv htr hq]

/-- Witness for the amended C8 at a succeeding client with a failing
embedding endpoint and with a raising index query. -/
theorem semantic_executor_guarded_total_witness :
    execute_pinecone_query_full clientOkFixture pineconeEmbedDownFixture
      "safety" Option.none =
      Except.ok (execute_pinecone_query pineconeEmbedDownFixture "safety"
        Option.none) ∧
    (execute_pinecone_query pineconeEmbedDownFixture "safety" Option.none).1 =
      PineconeResult.failure "Failed to generate embedding for Pinecone query." ∧
    (execute_pinecone_query pineconeQueryDownFixture "safety" Option.none).1 =
      PineconeResult.failure ("Pinecone query failed: " ++ "timeout") :=
  ⟨(semantic_executor_guarded_total clientOkFixture pineconeEmbedDownFixture
      "safety" Option.none rfl rfl).1,
   ((semantic_executor_guarded_total clientOkFixture pineconeEmbedDownFixture
      "safety" Option.none rfl rfl).2.2.1 (by decide)).1,
   (semantic_executor_guarded_total clientOkFixture pineconeQueryDownFixture
      "safety" Option.none rfl rfl).2.2.2.2 [1, 2] "timeout" rfl (by decide)
      rfl⟩


/-- C9 counterexample: in an environment where create_index and the handle
resolution report success while the index describes at dimension 768 against
the expected 1536, initialization hands back the index instead of failing
configuration validation: the detected mismatch is swallowed. Any refusal
in the mismatch scenario can only come from the earlier create_index call
raising, an exception that is independent of the dimension comparison. -/
theorem dimension_mismatch_counterexample :
    (768 : Nat) ≠ 1536 ∧
    get_or_create_pinecone_index adminMismatchFixture "products" 1536 =
      InitResult.gotIndex "products" := by decide

/-- C9 as amended: the dimension-mismatch ValueError is raised inside the
verification try block whose except handler catches every exception and
returns the index anyway, so a detected mismatch never makes initialization
fail; after the name guard passes, the function fails only by an uncaught
exception escaping from the unconditional create_index or Index call (such
as the index already existing, which raises with or without a mismatch),
and whenever both succeed the index handle is returned whatever the
described dimension. -/
theorem dimension_check_swallowed (env : PineconeAdminEnv) (name : String)
    (dim : Nat) (h1 : name ≠ "") (h2 : name ≠ "YOUR_PINECONE_INDEX_NAME") :
    (env.createIndex = Except.ok () → env.indexHandle = Except.ok () →
      get_or_create_pinecone_index env name dim = InitResult.gotIndex name) ∧
    (∀ e, env.createIndex = Except.error e →
      get_or_create_pinecone_index env name dim = InitResult.raised e) ∧
    (∀ e, env.createIndex = Except.ok () → env.indexHandle = Except.error e →
      get_or_create_pinecone_index env name dim = InitResult.raised e) := by
  refine ⟨?_, ?_, ?_⟩
  · intro hc hh
    unfold get_or_create_pinecone_index
    rw [if_neg (by simp [h1, h2]), hc, hh]
    dsimp only
    split <;> rfl
  · intro e hc
    unfold get_or_create_pinecone_index
    rw [if_neg (by simp [h1, h2]), hc]
  · intro e hc hh
    unfold get_or_create_pinecone_index
    rw [if_neg (by simp [h1, h2]), hc, hh]

/-- Witness for the amended C9 at the mismatched fixture and at a
create-index conflict. -/
theorem dimension_check_swallowed_witness :
    get_or_create_pinecone_index adminMismatchFixture "products" 1536 =
      InitResult.gotIndex "products" ∧
    get_or_create_pinecone_index adminConflictFixture "products" 1536 =
      InitResult.raised "index products already exists" :=
  ⟨(dimension_check_swallowed adminMismatchFixture "products" 1536
      (by decide) (by decide)).1 rfl rfl,
   (dimension_check_swallowed adminConflictFixture "products" 1536
      (by decide) (by decide)).2.1 "index products already exists" rfl⟩
